import Mathlib

/-!
Verification of the prompt-retrieval pipeline (orchestrator + strategies).

This file is a shallow embedding of `src/prompt_retrieval`:
the data model (`common/models.py`), the similarity-search strategy
(`strategies/similarity_search/strategy.py`), the passthrough strategy
(`strategies/passthrough/strategy.py`), the dynamic strategy
(`strategies/dynamic_prompt/strategy.py`) and the orchestrator
(`orchestrator/orchestrator.py`).

Modelling conventions:
* Python `float` scores appear here as `Rat`: every claim about scores is an
  order comparison against decimal constants, on which `Rat` agrees with IEEE
  doubles for the values involved.
* External collaborators (the Azure search backend, the question source, the
  result sink, telemetry) are parameters: a backend is a function from a
  question to a `SearchOutcome`, a stage strategy is a function that either
  returns an output or raises (`Except`).
* Python truthiness of strings and optional floats is modelled explicitly
  (`truthyStr`, empty string falsy; an `Option Rat` is truthy iff it is
  `some s` with `s ≠ 0`).
-/

namespace PromptRetrieval

/-- Similarity scores; Python floats modelled as rationals. -/
abbrev Score := Rat

/-- Embeds `QuestionInput` from `common/models.py`. -/
structure QuestionInput where
  question_id : String
  question_text : String
deriving DecidableEq

/-- Embeds `PromptRetrievalInput` from `common/models.py`. -/
structure PromptRetrievalInput where
  assessment_template_id : String
  questions : List QuestionInput
deriving DecidableEq

/-- Embeds `QuestionPromptMatch` from `common/models.py`. -/
structure QuestionPromptMatch where
  question_id : String
  question_text : String
  match_found : Bool
  match_score : Option Score := none
  selected_prompt_text : Option String := none
  error : Option String := none
deriving DecidableEq

/-- Embeds `PromptRetrievalOutput` from `common/models.py`. -/
structure PromptRetrievalOutput where
  assessment_template_id : String
  results : List QuestionPromptMatch := []
deriving DecidableEq

/-- Python truthiness of a string: empty is falsy. -/
def truthyStr (s : String) : Bool :=
  !(s == "")

/-- Python `a or b` for an optional string `a` and default `b`
(used for `result_question_id or q.question_id` in the strategy). -/
def pyOrStr (a : Option String) (b : String) : String :=
  match a with
  | some s => if s = "" then b else s
  | none => b

/-- Embeds `AzureAISearchConfig` from `config.py`
(the module imported by `strategies/similarity_search/__init__.py`). -/
structure AzureAISearchConfig where
  endpoint : String
  api_key : String
  api_version : String
  index_name : String
  similarity_threshold : Score := 2/10
deriving DecidableEq

/-- The state a successfully constructed `SimilaritySearchPromptStrategy`
carries that is relevant to retrieval: its configured threshold.  The Azure
`SearchClient` itself is external and appears as the `backend` parameter of
`retrieve_prompts_sim`. -/
structure SimilarityStrategy where
  similarity_threshold : Score
deriving DecidableEq

/-- One document returned by the search backend.  `score` is `some s` exactly
when the `"@search.score"` field is present and numeric (`isinstance(score,
(int, float))` in the source); a missing or non-numeric field is `none`.  The
other fields model `doc.get(...)` of the selected fields. -/
structure SearchDoc where
  score : Option Score := none
  promptText : Option String := none
  questionText : Option String := none
  questionId : Option String := none
deriving DecidableEq

/-- Outcome of one backend call for one question, covering the exception
classes the strategy handles: a successful response with a (possibly empty)
document list, an `HttpResponseError` with a status code, an `AzureError`,
or any other `Exception`.  Every exception Python can raise from the backend
call is an `Exception`, so these constructors are exhaustive for the `try`
block of `_query_top1_for_question`. -/
inductive SearchOutcome where
  | docs (ds : List SearchDoc)
  | httpError (status : Nat) (message : String)
  | azureError (message : String)
  | otherError (message : String)
deriving DecidableEq

/-- Embeds `SimilaritySearchPromptStrategy._query_top1_for_question`
(`strategies/similarity_search/strategy.py`, lines 85-169): query the backend
for the top-1 document, classify by the strategy's own threshold, and convert
each handled exception into a not-found match carrying an error string. -/
def query_top1_for_question (s : SimilarityStrategy)
    (backend : QuestionInput → SearchOutcome) (q : QuestionInput) :
    QuestionPromptMatch :=
  match backend q with
  | .docs [] =>
      { question_id := q.question_id, question_text := q.question_text,
        match_found := false }
  | .docs (doc :: _) =>
      let found :=
        match doc.score with
        | some sc => decide (s.similarity_threshold ≤ sc)
        | none => false
      { question_id := pyOrStr doc.questionId q.question_id,
        question_text := pyOrStr doc.questionText q.question_text,
        match_found := found,
        match_score := doc.score,
        selected_prompt_text := doc.promptText }
  | .httpError status message =>
      { question_id := q.question_id, question_text := q.question_text,
        match_found := false,
        error := some ("Azure Search HTTP error for question_id=" ++
          q.question_id ++ ": " ++ (toString status ++ (" - " ++ message))) }
  | .azureError message =>
      { question_id := q.question_id, question_text := q.question_text,
        match_found := false,
        error := some ("Azure Search error for question_id=" ++
          q.question_id ++ ": " ++ message) }
  | .otherError message =>
      { question_id := q.question_id, question_text := q.question_text,
        match_found := false,
        error := some message }

/-- Embeds `SimilaritySearchPromptStrategy.retrieve_prompts`
(`strategies/similarity_search/strategy.py`, lines 53-83).  The source fans
the questions out with `asyncio.gather(..., return_exceptions=True)` and
drops any task result that is an exception object; since
`_query_top1_for_question` catches every `Exception` class a backend call can
raise (see `SearchOutcome`), no task yields an exception object and the batch
is exactly the per-question map. -/
def retrieve_prompts_sim (s : SimilarityStrategy)
    (backend : QuestionInput → SearchOutcome) (request : PromptRetrievalInput) :
    PromptRetrievalOutput :=
  { assessment_template_id := request.assessment_template_id,
    results := request.questions.map (query_top1_for_question s backend) }

/-- Embeds `SimilaritySearchPromptStrategy.__init__`
(`strategies/similarity_search/strategy.py`, lines 26-51): raise `ValueError`
when `not (endpoint and api_key and index_name)` under Python string
truthiness, otherwise construct the strategy (the Azure client construction
is external and does not validate the config further). -/
def similaritySearchInit (cfg : AzureAISearchConfig) :
    Except String SimilarityStrategy :=
  if !(truthyStr cfg.endpoint && truthyStr cfg.api_key && truthyStr cfg.index_name) then
    .error "AzureAISearchConfig is missing required fields."
  else
    .ok { similarity_threshold := cfg.similarity_threshold }

/-- True when the backend call for this question raised (any handled
exception class), false on a successful response. -/
def isBackendFailure : SearchOutcome → Bool
  | .docs _ => false
  | .httpError _ _ => true
  | .azureError _ => true
  | .otherError _ => true

/-- Embeds `PassthroughPromptConfig` from `strategies/passthrough/config.py`.
The source field `prefix` is a Lean keyword, so it is named `pfx` here. -/
structure PassthroughPromptConfig where
  pfx : Option String := none
  suffix : Option String := none
  format_template : Option String := none
  include_question_id : Bool := false
  include_metadata : Bool := true
deriving DecidableEq

/-- Scanner state for the modelled fragment of Python `str.format`:
ordinary text, just after an opening brace, just after a closing brace, or
inside a replacement field whose name so far is held reversed in `acc`. -/
inductive FmtMode where
  | text
  | openB
  | closeB
  | fieldAcc (acc : List Char)
deriving DecidableEq

/-- Scanner for the fragment of Python `str.format` the passthrough strategy
relies on, over the template's characters.  `\x7b\x7b` and `\x7d\x7d` are
escaped braces; a lone closing brace, an unterminated field, or a brace
inside a field name raises `ValueError`; the field `question` substitutes
the question text `q`; any other field name (including the empty one)
raises a lookup error, as `format` does when called with only the keyword
argument `question`.  Conversion and format-spec suffixes of real
`str.format` are outside the modelled fragment. -/
def pyFormatGo (q : List Char) : FmtMode → List Char → Except String (List Char)
  | .text, [] => .ok []
  | .openB, [] => .error "ValueError: Single brace encountered in format string"
  | .closeB, [] => .error "ValueError: Single brace encountered in format string"
  | .fieldAcc _, [] => .error "ValueError: Single brace encountered in format string"
  | .text, c :: rest =>
      if c = '\x7b' then pyFormatGo q .openB rest
      else if c = '\x7d' then pyFormatGo q .closeB rest
      else (pyFormatGo q .text rest).map (fun l => c :: l)
  | .openB, c :: rest =>
      if c = '\x7b' then (pyFormatGo q .text rest).map (fun l => '\x7b' :: l)
      else if c = '\x7d' then .error "IndexError: replacement index out of range"
      else pyFormatGo q (.fieldAcc [c]) rest
  | .closeB, c :: rest =>
      if c = '\x7d' then (pyFormatGo q .text rest).map (fun l => '\x7d' :: l)
      else .error "ValueError: Single brace encountered in format string"
  | .fieldAcc acc, c :: rest =>
      if c = '\x7d' then
        if acc.reverse = String.toList "question" then
          (pyFormatGo q .text rest).map (fun l => q ++ l)
        else
          .error "KeyError: unknown field name in format string"
      else if c = '\x7b' then
        .error "ValueError: unexpected brace in field name"
      else
        pyFormatGo q (.fieldAcc (c :: acc)) rest

/-- Python `template.format(question=question_text)` on the modelled
fragment (see `pyFormatGo`). -/
def pyFormat (template question_text : String) : Except String String :=
  (pyFormatGo question_text.toList .text template.toList).map String.mk

/-- First block of `PassthroughPromptStrategy._format_question_as_prompt`
(`strategies/passthrough/strategy.py`, lines 109-113): substitute the
question into the template when the template is truthy, else use the raw
question text. -/
def applyTemplate (cfg : PassthroughPromptConfig) (question_text : String) :
    Except String String :=
  match cfg.format_template with
  | some tpl => if tpl ≠ "" then pyFormat tpl question_text else .ok question_text
  | none => .ok question_text

/-- Second block of `_format_question_as_prompt` (lines 115-117): prepend the
prefix with one separating space when it is truthy. -/
def applyPrefix (cfg : PassthroughPromptConfig) (prompt_text : String) : String :=
  match cfg.pfx with
  | some p => if p ≠ "" then p ++ " " ++ prompt_text else prompt_text
  | none => prompt_text

/-- Third block of `_format_question_as_prompt` (lines 119-121): append the
suffix with one separating space when it is truthy. -/
def applySuffix (cfg : PassthroughPromptConfig) (prompt_text : String) : String :=
  match cfg.suffix with
  | some sfx => if sfx ≠ "" then prompt_text ++ " " ++ sfx else prompt_text
  | none => prompt_text

/-- Embeds `PassthroughPromptStrategy._format_question_as_prompt`
(`strategies/passthrough/strategy.py`, lines 100-123).  Only the template
substitution can raise; the prefix/suffix f-strings cannot. -/
def format_question_as_prompt (cfg : PassthroughPromptConfig)
    (question_text : String) : Except String String :=
  match applyTemplate cfg question_text with
  | .ok t => .ok (applySuffix cfg (applyPrefix cfg t))
  | .error e => .error e

/-- The per-question body of `PassthroughPromptStrategy.retrieve_prompts`
(`strategies/passthrough/strategy.py`, lines 59-84): a formatting success is
a found match with score 1.0 and the formatted prompt; a formatting
exception is caught and becomes a not-found match with the error string. -/
def passthroughMatch (cfg : PassthroughPromptConfig) (q : QuestionInput) :
    QuestionPromptMatch :=
  match format_question_as_prompt cfg q.question_text with
  | .ok p =>
      { question_id := q.question_id, question_text := q.question_text,
        match_found := true, match_score := some 1,
        selected_prompt_text := some p }
  | .error e =>
      { question_id := q.question_id, question_text := q.question_text,
        match_found := false, error := some e }

/-- Embeds `PassthroughPromptStrategy.retrieve_prompts`
(`strategies/passthrough/strategy.py`, lines 38-98): one match appended per
question, in input order. -/
def retrieve_prompts_pass (cfg : PassthroughPromptConfig)
    (request : PromptRetrievalInput) : PromptRetrievalOutput :=
  { assessment_template_id := request.assessment_template_id,
    results := request.questions.map (passthroughMatch cfg) }

/-- The per-question body of `DynamicPromptStrategy.retrieve_prompts`
(`strategies/dynamic_prompt/strategy.py`, lines 66-91).  The stub generation
is an f-string that cannot raise, so the `except` branch is dead code. -/
def dynamicMatch (q : QuestionInput) : QuestionPromptMatch :=
  { question_id := q.question_id, question_text := q.question_text,
    match_found := true, match_score := some 1,
    selected_prompt_text := some
      ("[AI-Generated] Please provide a comprehensive response to: " ++
        q.question_text) }

/-- Embeds `DynamicPromptStrategy.retrieve_prompts`
(`strategies/dynamic_prompt/strategy.py`, lines 38-105). -/
def retrieve_prompts_dyn (request : PromptRetrievalInput) : PromptRetrievalOutput :=
  { assessment_template_id := request.assessment_template_id,
    results := request.questions.map dynamicMatch }

/-- Embeds `OrchestratorConfig` from `orchestrator/config.py`. -/
structure OrchestratorConfig where
  enable_dynamic_prompt : Bool := false
  similarity_threshold : Score := 75/100
  max_parallel_requests : Nat := 5
  fallback_to_passthrough : Bool := true
  fallback_to_dynamic : Bool := false
deriving DecidableEq

/-- A stage strategy as the orchestrator sees it: a call on a
`PromptRetrievalInput` that either returns an output or raises. -/
abbrev Strategy := PromptRetrievalInput → Except String PromptRetrievalOutput

/-- Embeds the `_try_similarity_search` / `_try_passthrough` /
`_try_dynamic_prompt` helpers (`orchestrator/orchestrator.py`, lines
147-211): build a stage request from the given questions, call the strategy,
and on any exception return an output with no results (fault isolation). -/
def runStage (b : Strategy) (tid : String) (qs : List QuestionInput) :
    List QuestionPromptMatch :=
  match b { assessment_template_id := tid, questions := qs } with
  | .ok out => out.results
  | .error _ => []

/-- The good-match predicate of the orchestrator's partition
(`orchestrator/orchestrator.py`, lines 231-234):
`match.match_found and match.match_score and match.match_score >= threshold`
under Python truthiness, so a `None` or `0.0` score fails the middle
conjunct. -/
def isGoodMatch (threshold : Score) (m : QuestionPromptMatch) : Bool :=
  m.match_found &&
    (match m.match_score with
     | some sc => !(sc == 0) && decide (threshold ≤ sc)
     | none => false)

/-- Embeds `PromptRetrievalOrchestrator._process_similarity_results`
(`orchestrator/orchestrator.py`, lines 213-245). -/
def processSimilarityResults (threshold : Score)
    (results : List QuestionPromptMatch) (original : List QuestionInput) :
    List QuestionPromptMatch × List QuestionInput :=
  if results.isEmpty then ([], original)
  else
    let good := results.filter (isGoodMatch threshold)
    let matchedIds := good.map (fun m => m.question_id)
    (good, original.filter (fun q => !(matchedIds.contains q.question_id)))

/-- State after one orchestrator stage: accumulated results, remaining
unmatched questions, and whether the stage's strategy was actually called. -/
structure StageResult where
  results : List QuestionPromptMatch
  unmatched : List QuestionInput
  invoked : Bool
deriving DecidableEq

/-- Step 1 of `retrieve_prompts` (`orchestrator/orchestrator.py`, lines
87-99): when questions remain, run the similarity strategy over all of them
and partition. -/
def similarityStep (cfg : OrchestratorConfig) (simB : Strategy) (tid : String)
    (questions : List QuestionInput) : StageResult :=
  if questions.isEmpty then
    { results := [], unmatched := questions, invoked := false }
  else
    let simOut := runStage simB tid questions
    let p := processSimilarityResults cfg.similarity_threshold simOut questions
    { results := p.1, unmatched := p.2, invoked := true }

/-- Step 2 of `retrieve_prompts` (`orchestrator/orchestrator.py`, lines
101-111): when unmatched questions remain, passthrough fallback is enabled
and a passthrough strategy is present, call it on the unmatched questions;
a non-empty result list is appended wholesale and clears the unmatched set,
an empty one changes nothing. -/
def passthroughStep (cfg : OrchestratorConfig) (passB : Option Strategy)
    (tid : String) (acc : List QuestionPromptMatch)
    (unmatched : List QuestionInput) : StageResult :=
  match passB with
  | some b =>
      if !unmatched.isEmpty && cfg.fallback_to_passthrough then
        let out := runStage b tid unmatched
        if out.isEmpty then
          { results := acc, unmatched := unmatched, invoked := true }
        else
          { results := acc ++ out, unmatched := [], invoked := true }
      else
        { results := acc, unmatched := unmatched, invoked := false }
  | none => { results := acc, unmatched := unmatched, invoked := false }

/-- Step 3 of `retrieve_prompts` (`orchestrator/orchestrator.py`, lines
113-127): like `passthroughStep`, gated on
`enable_dynamic_prompt and fallback_to_dynamic` and a present strategy. -/
def dynamicStep (cfg : OrchestratorConfig) (dynB : Option Strategy)
    (tid : String) (acc : List QuestionPromptMatch)
    (unmatched : List QuestionInput) : StageResult :=
  match dynB with
  | some b =>
      if !unmatched.isEmpty && (cfg.enable_dynamic_prompt && cfg.fallback_to_dynamic) then
        let out := runStage b tid unmatched
        if out.isEmpty then
          { results := acc, unmatched := unmatched, invoked := true }
        else
          { results := acc ++ out, unmatched := [], invoked := true }
      else
        { results := acc, unmatched := unmatched, invoked := false }
  | none => { results := acc, unmatched := unmatched, invoked := false }

/-- Observable outcome of one `PromptRetrievalOrchestrator.retrieve_prompts`
run: which strategies were called, the accumulated results, the questions
still unmatched at the final warning, and what (if anything) was written to
the result sink. -/
structure OrchestratorTrace where
  simInvoked : Bool
  passInvoked : Bool
  dynInvoked : Bool
  results : List QuestionPromptMatch
  unmatched : List QuestionInput
  wrote : Bool
  written : List QuestionPromptMatch
deriving DecidableEq

/-- Embeds `PromptRetrievalOrchestrator.retrieve_prompts`
(`orchestrator/orchestrator.py`, lines 50-145), with the question source's
answer passed in as `questions` (the in-repo source is a stub returning the
empty list).  An empty question list returns before any stage; otherwise the
three stages run in sequence and the results are written exactly when
non-empty. -/
def orchestrate (cfg : OrchestratorConfig) (tid : String)
    (questions : List QuestionInput) (simB : Strategy)
    (passB : Option Strategy) (dynB : Option Strategy) : OrchestratorTrace :=
  if questions.isEmpty then
    { simInvoked := false, passInvoked := false, dynInvoked := false,
      results := [], unmatched := [], wrote := false, written := [] }
  else
    let s1 := similarityStep cfg simB tid questions
    let s2 := passthroughStep cfg passB tid s1.results s1.unmatched
    let s3 := dynamicStep cfg dynB tid s2.results s2.unmatched
    { simInvoked := s1.invoked, passInvoked := s2.invoked,
      dynInvoked := s3.invoked,
      results := s3.results, unmatched := s3.unmatched,
      wrote := !s3.results.isEmpty,
      written := if s3.results.isEmpty then [] else s3.results }

/-- The good-match predicate as the spec sentence for claim C2 states it:
found, score not null, score at least the threshold (no truthiness on the
score).  Kept separate from `isGoodMatch`, which embeds the code. -/
def claimedGoodMatch (threshold : Score) (m : QuestionPromptMatch) : Bool :=
  m.match_found && m.match_score.isSome &&
    decide (threshold ≤ m.match_score.getD 0)

/-- The amended good-match predicate: found, score not null and non-zero,
and at least the threshold. -/
def amendedGoodMatch (threshold : Score) (m : QuestionPromptMatch) : Bool :=
  m.match_found && m.match_score.isSome && !(m.match_score.getD 0 == 0) &&
    decide (threshold ≤ m.match_score.getD 0)

/-- A character list without brace characters (plain template text). -/
def braceFreeL (l : List Char) : Bool :=
  l.all (fun c => !(c == '\x7b') && !(c == '\x7d'))

/-- Brace-free template text is passed through unchanged by the scanner. -/
theorem pyFormatGo_braceFree (q : List Char) :
    ∀ l : List Char, braceFreeL l = true → pyFormatGo q .text l = .ok l := by
  intro l hl
  induction l with
  | nil => rfl
  | cons c rest ih =>
      simp only [braceFreeL, List.all_cons, Bool.and_eq_true, Bool.not_eq_true',
        beq_eq_false_iff_ne, ne_eq] at hl
      obtain ⟨⟨hc1, hc2⟩, hrest⟩ := hl
      have ih' := ih (by simpa [braceFreeL] using hrest)
      simp [pyFormatGo, hc1, hc2, ih', Except.map]

/-- Scanning a brace-free field name: the accumulated name is compared with
`question` at the closing brace. -/
theorem pyFormatGo_field (q post : List Char) :
    ∀ (name acc : List Char), braceFreeL name = true →
      pyFormatGo q (.fieldAcc acc) (name ++ '\x7d' :: post) =
        if (acc.reverse ++ name) = String.toList "question" then
          (pyFormatGo q .text post).map (fun l => q ++ l)
        else
          .error "KeyError: unknown field name in format string" := by
  intro name
  induction name with
  | nil =>
      intro acc _
      simp [pyFormatGo]
  | cons c rest ih =>
      intro acc hname
      simp only [braceFreeL, List.all_cons, Bool.and_eq_true, Bool.not_eq_true',
        beq_eq_false_iff_ne, ne_eq] at hname
      obtain ⟨⟨hc1, hc2⟩, hrest⟩ := hname
      have ih' := ih (c :: acc) (by simpa [braceFreeL] using hrest)
      rw [List.cons_append]
      simp only [pyFormatGo, if_neg hc2, if_neg hc1, ih', List.reverse_cons,
        List.append_assoc, List.singleton_append]

/-- One scanner step: a non-brace character in text mode is copied over. -/
theorem pyFormatGo_text_char (q l : List Char) (c : Char)
    (hc1 : c ≠ '\x7b') (hc2 : c ≠ '\x7d') :
    pyFormatGo q .text (c :: l) = (pyFormatGo q .text l).map (fun t => c :: t) := by
  simp [pyFormatGo, hc1, hc2]

/-- One scanner step: an opening brace in text mode. -/
theorem pyFormatGo_text_open (q l : List Char) :
    pyFormatGo q .text ('\x7b' :: l) = pyFormatGo q .openB l := by
  simp [pyFormatGo]

/-- One scanner step: a non-brace character right after an opening brace
starts a field name. -/
theorem pyFormatGo_openB_start (q l : List Char) (c : Char)
    (hc1 : c ≠ '\x7b') (hc2 : c ≠ '\x7d') :
    pyFormatGo q .openB (c :: l) = pyFormatGo q (.fieldAcc [c]) l := by
  simp [pyFormatGo, hc1, hc2]

/-- Substitution through a template of the shape
`pre ++ "\x7bquestion\x7d" ++ post` with brace-free `pre` and `post`. -/
theorem pyFormatGo_subst (q : List Char) :
    ∀ (pre post : List Char), braceFreeL pre = true → braceFreeL post = true →
      pyFormatGo q .text (pre ++ '\x7b' :: (String.toList "question" ++ '\x7d' :: post)) =
        .ok (pre ++ (q ++ post)) := by
  intro pre
  induction pre with
  | nil =>
      intro post _ hpost
      rw [List.nil_append, List.nil_append, pyFormatGo_text_open]
      have hq : String.toList "question" = 'q' :: String.toList "uestion" := rfl
      rw [hq, List.cons_append,
        pyFormatGo_openB_start q _ 'q' (by decide) (by decide),
        pyFormatGo_field q post (String.toList "uestion") ['q'] (by decide),
        if_pos (by decide), pyFormatGo_braceFree q post hpost]
      rfl
  | cons c rest ih =>
      intro post hpre hpost
      simp only [braceFreeL, List.all_cons, Bool.and_eq_true, Bool.not_eq_true',
        beq_eq_false_iff_ne, ne_eq] at hpre
      obtain ⟨⟨hc1, hc2⟩, hrest⟩ := hpre
      have ih' := ih post (by simpa [braceFreeL] using hrest) hpost
      rw [List.cons_append, pyFormatGo_text_char q _ c hc1 hc2, ih']
      rfl

/-- Sample question used by concrete witnesses. -/
def qA : QuestionInput :=
  { question_id := "qa", question_text := "text a" }

/-- Second sample question used by concrete witnesses. -/
def qB : QuestionInput :=
  { question_id := "qb", question_text := "text b" }

/-- Sample similarity result with `match_found = true` and score exactly 0. -/
def mZero : QuestionPromptMatch :=
  { question_id := "qa", question_text := "text a", match_found := true,
    match_score := some 0 }

/-- Length of a similarity batch output. -/
theorem retrieve_prompts_sim_length (s : SimilarityStrategy)
    (backend : QuestionInput → SearchOutcome) (request : PromptRetrievalInput) :
    (retrieve_prompts_sim s backend request).results.length =
      request.questions.length := by
  simp [retrieve_prompts_sim]

/-- C1: For every input batch, each strategy's retrieve_prompts returns
exactly one QuestionPromptMatch per input QuestionInput, even when the
backend fails for individual questions (per-item failures are substituted as
error matches, never dropped); in particular, for the similarity strategy, n
input questions always yield n results.  The similarity batch is exactly the
per-question map (fourth conjunct), and a per-item backend failure yields a
not-found match with a populated error instead of being dropped (third
conjunct). -/
theorem claim_one_match_per_question (s : SimilarityStrategy)
    (backend : QuestionInput → SearchOutcome) (cfg : PassthroughPromptConfig)
    (request : PromptRetrievalInput) :
    (retrieve_prompts_sim s backend request).results.length = request.questions.length
    ∧ (retrieve_prompts_pass cfg request).results.length = request.questions.length
    ∧ (∀ q : QuestionInput, isBackendFailure (backend q) = true →
        (query_top1_for_question s backend q).match_found = false
        ∧ (query_top1_for_question s backend q).error.isSome = true)
    ∧ (retrieve_prompts_sim s backend request).results =
        request.questions.map (query_top1_for_question s backend)
    ∧ (retrieve_prompts_dyn request).results.length = request.questions.length := by
  refine ⟨retrieve_prompts_sim_length s backend request,
    by simp [retrieve_prompts_pass], ?_, rfl, by simp [retrieve_prompts_dyn]⟩
  intro q h
  cases hb : backend q with
  | docs ds => rw [hb] at h; simp [isBackendFailure] at h
  | httpError st msg => simp [query_top1_for_question, hb]
  | azureError msg => simp [query_top1_for_question, hb]
  | otherError msg => simp [query_top1_for_question, hb]

/-- Witness for C1 at a concrete batch where the backend fails with an HTTP
500 for one question and succeeds with no documents for the other. -/
theorem claim_one_match_per_question_witness :
    (retrieve_prompts_sim { similarity_threshold := 3/4 }
        (fun q => if q.question_id = "qa" then .httpError 500 "boom" else .docs [])
        { assessment_template_id := "t1", questions := [qA, qB] }).results.length = 2
    ∧ (query_top1_for_question { similarity_threshold := 3/4 }
        (fun q => if q.question_id = "qa" then .httpError 500 "boom" else .docs [])
        qA).error.isSome = true := by
  have h := claim_one_match_per_question { similarity_threshold := 3/4 }
    (fun q => if q.question_id = "qa" then .httpError 500 "boom" else .docs [])
    {} { assessment_template_id := "t1", questions := [qA, qB] }
  exact ⟨h.1, (h.2.2.1 qA (by decide)).2⟩

/-- C4: For every question processed by the similarity strategy, the
returned match satisfies: match_found is true iff the backend returned a
document whose score field is numeric and that score is at least the
strategy config's similarity_threshold; when the backend returns no document
or the score is missing/non-numeric, the result has match_found = false and
no error is recorded (the function returns normally rather than raising). -/
theorem claim_similarity_match_found_iff (s : SimilarityStrategy)
    (backend : QuestionInput → SearchOutcome) (q : QuestionInput) :
    ((query_top1_for_question s backend q).match_found = true ↔
      ∃ (d : SearchDoc) (rest : List SearchDoc) (sc : Score),
        backend q = .docs (d :: rest) ∧ d.score = some sc ∧
          s.similarity_threshold ≤ sc)
    ∧ (backend q = .docs [] →
        query_top1_for_question s backend q =
          { question_id := q.question_id, question_text := q.question_text,
            match_found := false })
    ∧ (∀ (d : SearchDoc) (rest : List SearchDoc),
        backend q = .docs (d :: rest) → d.score = none →
          (query_top1_for_question s backend q).match_found = false
          ∧ (query_top1_for_question s backend q).error = none) := by
  refine ⟨?_, ?_, ?_⟩
  · constructor
    · intro h
      cases hb : backend q with
      | docs ds =>
          cases ds with
          | nil => rw [query_top1_for_question, hb] at h; simp at h
          | cons d rest =>
              rw [query_top1_for_question, hb] at h
              cases hs : d.score with
              | none => simp [hs] at h
              | some sc =>
                  refine ⟨d, rest, sc, rfl, hs, ?_⟩
                  simpa [hs] using h
      | httpError st msg => rw [query_top1_for_question, hb] at h; simp at h
      | azureError msg => rw [query_top1_for_question, hb] at h; simp at h
      | otherError msg => rw [query_top1_for_question, hb] at h; simp at h
    · rintro ⟨d, rest, sc, hb, hs, hle⟩
      rw [query_top1_for_question, hb]
      simp [hs, hle]
  · intro hb
    rw [query_top1_for_question, hb]
  · intro d rest hb hs
    rw [query_top1_for_question, hb]
    simp [hs]

/-- Witness for C4: a backend document scored 0.82 against threshold 0.75 is
a found match; an empty backend answer is a clean not-found. -/
theorem claim_similarity_match_found_iff_witness :
    (query_top1_for_question { similarity_threshold := 75/100 }
        (fun _ => .docs [{ score := some (82/100), promptText := some "p" }])
        qA).match_found = true
    ∧ query_top1_for_question { similarity_threshold := 75/100 }
        (fun _ => .docs []) qB =
        { question_id := qB.question_id, question_text := qB.question_text,
          match_found := false } := by
  constructor
  · exact (claim_similarity_match_found_iff { similarity_threshold := 75/100 }
      (fun _ => .docs [{ score := some (82/100), promptText := some "p" }])
      qA).1.mpr ⟨{ score := some (82/100), promptText := some "p" }, [], 82/100,
        rfl, rfl, by norm_num⟩
  · exact (claim_similarity_match_found_iff { similarity_threshold := 75/100 }
      (fun _ => .docs []) qB).2.1 rfl

/-- C6: When the backend raises an HTTP or SDK error for one question in a
similarity-strategy batch, that question's result has match_found = false
and a non-null error string containing an identifiable marker (the status
code for HTTP errors), and the remaining questions in the batch are still
processed (the batch output is still the per-question map over the whole
input list). -/
theorem claim_similarity_per_item_error (s : SimilarityStrategy)
    (backend : QuestionInput → SearchOutcome) (q : QuestionInput)
    (status : Nat) (message : String) (tid : String)
    (l1 l2 : List QuestionInput) :
    (backend q = .httpError status message →
      (query_top1_for_question s backend q).match_found = false
      ∧ (∃ pre post : String,
          (query_top1_for_question s backend q).error =
            some (pre ++ (toString status ++ post)))
      ∧ (retrieve_prompts_sim s backend
            { assessment_template_id := tid, questions := l1 ++ q :: l2 }).results =
          l1.map (query_top1_for_question s backend)
            ++ query_top1_for_question s backend q
              :: l2.map (query_top1_for_question s backend))
    ∧ (backend q = .azureError message →
      (query_top1_for_question s backend q).match_found = false
      ∧ (query_top1_for_question s backend q).error.isSome = true) := by
  constructor
  · intro hb
    refine ⟨?_, ?_, ?_⟩
    · rw [query_top1_for_question, hb]
    · refine ⟨"Azure Search HTTP error for question_id=" ++ q.question_id ++ ": ",
        " - " ++ message, ?_⟩
      rw [query_top1_for_question, hb]
    · simp [retrieve_prompts_sim]
  · intro hb
    rw [query_top1_for_question, hb]
    simp

/-- Witness for C6 at a concrete two-question batch whose backend fails with
an HTTP 500 for the first question. -/
theorem claim_similarity_per_item_error_witness :
    (query_top1_for_question { similarity_threshold := 3/4 }
        (fun q => if q.question_id = "qa" then .httpError 500 "server down" else .docs [])
        qA).match_found = false
    ∧ (∃ pre post : String,
        (query_top1_for_question { similarity_threshold := 3/4 }
          (fun q => if q.question_id = "qa" then .httpError 500 "server down" else .docs [])
          qA).error = some (pre ++ (toString 500 ++ post)))
    ∧ (retrieve_prompts_sim { similarity_threshold := 3/4 }
        (fun q => if q.question_id = "qa" then .httpError 500 "server down" else .docs [])
        { assessment_template_id := "t1", questions := [] ++ qA :: [qB] }).results =
      [].map (query_top1_for_question { similarity_threshold := 3/4 }
        (fun q => if q.question_id = "qa" then .httpError 500 "server down" else .docs []))
        ++ query_top1_for_question { similarity_threshold := 3/4 }
            (fun q => if q.question_id = "qa" then .httpError 500 "server down" else .docs [])
            qA
          :: [qB].map (query_top1_for_question { similarity_threshold := 3/4 }
            (fun q => if q.question_id = "qa" then .httpError 500 "server down" else .docs [])) :=
  (claim_similarity_per_item_error { similarity_threshold := 3/4 }
    (fun q => if q.question_id = "qa" then .httpError 500 "server down" else .docs [])
    qA 500 "server down" "t1" [] [qB]).1 rfl

/-- Counterexample to C2 as stated: with the orchestrator threshold at 0,
the result `mZero` (match_found = true, match_score = some 0) satisfies the
claimed good-match criterion (found, score not null, score at least the
threshold), yet the partition classifies it as not good and sends its
question to the unmatched set, because the code tests the score for Python
truthiness and 0.0 is falsy. -/
theorem claim_partition_counterexample :
    claimedGoodMatch 0 mZero = true
    ∧ processSimilarityResults 0 [mZero] [qA] = ([], [qA]) := by
  decide

/-- C2 amended: a result counts as a good match exactly when match_found is
true, match_score is not null AND not zero (Python truthiness of the float),
and match_score is at least the orchestrator config's similarity_threshold;
every input question whose question_id is not among the good matches'
question_ids is placed in the unmatched set. -/
theorem claim_partition_amended (threshold : Score)
    (results : List QuestionPromptMatch) (original : List QuestionInput) :
    (∀ m : QuestionPromptMatch,
        isGoodMatch threshold m = amendedGoodMatch threshold m)
    ∧ (processSimilarityResults threshold results original).1 =
        results.filter (amendedGoodMatch threshold)
    ∧ (processSimilarityResults threshold results original).2 =
        original.filter (fun q =>
          !(((results.filter (amendedGoodMatch threshold)).map
              (fun m => m.question_id)).contains q.question_id)) := by
  have hpt : ∀ m : QuestionPromptMatch,
      isGoodMatch threshold m = amendedGoodMatch threshold m := by
    intro m
    cases hs : m.match_score with
    | none => simp [isGoodMatch, amendedGoodMatch, hs]
    | some sc =>
        by_cases h0 : sc = 0 <;>
          simp [isGoodMatch, amendedGoodMatch, hs, h0, Bool.and_assoc]
  have hfilter : results.filter (isGoodMatch threshold) =
      results.filter (amendedGoodMatch threshold) :=
    List.filter_congr (fun m _ => hpt m)
  refine ⟨hpt, ?_, ?_⟩
  · cases results with
    | nil => simp [processSimilarityResults]
    | cons r rs => simp [processSimilarityResults, hfilter]
  · cases results with
    | nil => simp [processSimilarityResults, List.contains]
    | cons r rs => simp [processSimilarityResults, hfilter]

/-- C10: in the orchestrator's partition, a similarity result with
match_found = true and match_score exactly 0.0 is never classified as a good
match, even when the threshold is 0.0 or negative, because the partition
tests the score for truthiness; a question all of whose results carry score
0.0 always flows to the unmatched set handed to the fallback stages. -/
theorem claim_zero_score_never_good (threshold : Score)
    (results : List QuestionPromptMatch) (original : List QuestionInput) :
    (∀ m : QuestionPromptMatch, m.match_score = some 0 →
        isGoodMatch threshold m = false)
    ∧ (∀ m ∈ results, m.match_score = some 0 →
        m ∉ (processSimilarityResults threshold results original).1)
    ∧ (∀ q ∈ original,
        (∀ m ∈ results, m.question_id = q.question_id → m.match_score = some 0) →
        q ∈ (processSimilarityResults threshold results original).2) := by
  have hzero : ∀ m : QuestionPromptMatch, m.match_score = some 0 →
      isGoodMatch threshold m = false := by
    intro m hs
    simp [isGoodMatch, hs]
  refine ⟨hzero, ?_, ?_⟩
  · intro m hm hs hmem
    cases results with
    | nil => simp [processSimilarityResults] at hmem
    | cons r rs =>
        rw [processSimilarityResults] at hmem
        simp only [List.isEmpty_cons, if_false] at hmem
        have := List.of_mem_filter hmem
        rw [hzero m hs] at this
        exact Bool.false_ne_true this
  · intro q hq hall
    cases results with
    | nil =>
        simpa [processSimilarityResults] using hq
    | cons r rs =>
        rw [processSimilarityResults]
        simp only [List.isEmpty_cons, if_false]
        refine List.mem_filter.mpr ⟨hq, ?_⟩
        simp only [Bool.not_eq_true']
        rw [Bool.eq_false_iff]
        intro hcontains
        have hmem : q.question_id ∈
            ((r :: rs).filter (isGoodMatch threshold)).map
              (fun m => m.question_id) := by
          simpa using hcontains
        obtain ⟨m, hmf, hid⟩ := List.mem_map.mp hmem
        have hmr : m ∈ r :: rs := List.mem_of_mem_filter hmf
        have hgood : isGoodMatch threshold m = true := List.of_mem_filter hmf
        rw [hzero m (hall m hmr hid)] at hgood
        exact Bool.false_ne_true hgood

/-- Witness for C10: with a negative threshold, the zero-score result is not
a good match and its question is handed to the fallback stages. -/
theorem claim_zero_score_never_good_witness :
    isGoodMatch (-1) mZero = false
    ∧ qA ∈ (processSimilarityResults (-1) [mZero] [qA]).2 := by
  have h := claim_zero_score_never_good (-1) [mZero] [qA]
  exact ⟨h.1 mZero (by decide),
    h.2.2 qA (by decide) (fun m hm _ => by
      simp only [List.mem_singleton] at hm
      rw [hm]; rfl)⟩

/-- C7: If the question source yields zero questions for the
assessment_template_id, the orchestrator's retrieve_prompts returns without
invoking any strategy and without writing to the result sink. -/
theorem claim_orchestrator_empty_questions (cfg : OrchestratorConfig)
    (tid : String) (simB : Strategy) (passB dynB : Option Strategy) :
    orchestrate cfg tid [] simB passB dynB =
      { simInvoked := false, passInvoked := false, dynInvoked := false,
        results := [], unmatched := [], wrote := false, written := [] } :=
  rfl

/-- C3: the passthrough stage runs only when fallback_to_passthrough is
true, a passthrough strategy is present and unmatched questions remain, and
the dynamic stage only when enable_dynamic_prompt and fallback_to_dynamic
are both true, a dynamic strategy is present and unmatched questions remain;
when a stage runs and its result list is non-empty, all results are appended
to the accumulated output and the unmatched set becomes empty (match_found
is not re-checked: the quantification is over arbitrary stage outputs); when
the result list is empty the unmatched set is unchanged. -/
theorem claim_fallback_clobber (cfg : OrchestratorConfig) (tid : String)
    (pb db : Strategy) (acc : List QuestionPromptMatch)
    (unmatched : List QuestionInput) :
    ((cfg.fallback_to_passthrough = true → unmatched ≠ [] →
        (runStage pb tid unmatched = [] →
          passthroughStep cfg (some pb) tid acc unmatched =
            { results := acc, unmatched := unmatched, invoked := true })
        ∧ (runStage pb tid unmatched ≠ [] →
          passthroughStep cfg (some pb) tid acc unmatched =
            { results := acc ++ runStage pb tid unmatched, unmatched := [],
              invoked := true }))
      ∧ (cfg.fallback_to_passthrough = false ∨ unmatched = [] →
          passthroughStep cfg (some pb) tid acc unmatched =
            { results := acc, unmatched := unmatched, invoked := false })
      ∧ passthroughStep cfg none tid acc unmatched =
          { results := acc, unmatched := unmatched, invoked := false })
    ∧ (((cfg.enable_dynamic_prompt && cfg.fallback_to_dynamic) = true →
        unmatched ≠ [] →
        (runStage db tid unmatched = [] →
          dynamicStep cfg (some db) tid acc unmatched =
            { results := acc, unmatched := unmatched, invoked := true })
        ∧ (runStage db tid unmatched ≠ [] →
          dynamicStep cfg (some db) tid acc unmatched =
            { results := acc ++ runStage db tid unmatched, unmatched := [],
              invoked := true }))
      ∧ ((cfg.enable_dynamic_prompt && cfg.fallback_to_dynamic) = false ∨
            unmatched = [] →
          dynamicStep cfg (some db) tid acc unmatched =
            { results := acc, unmatched := unmatched, invoked := false })
      ∧ dynamicStep cfg none tid acc unmatched =
          { results := acc, unmatched := unmatched, invoked := false }) := by
  constructor
  · refine ⟨?_, ?_, rfl⟩
    · intro hflag hne
      have hne' : unmatched.isEmpty = false := by
        cases unmatched with
        | nil => exact absurd rfl hne
        | cons a l => rfl
      constructor
      · intro hout
        simp [passthroughStep, hne', hflag, hout]
      · intro hout
        have hout' : (runStage pb tid unmatched).isEmpty = false := by
          cases h : runStage pb tid unmatched with
          | nil => exact absurd h hout
          | cons a l => rfl
        simp [passthroughStep, hne', hflag, hout']
    · intro h
      cases h with
      | inl hflag => simp [passthroughStep, hflag]
      | inr hemp => simp [passthroughStep, hemp]
  · refine ⟨?_, ?_, rfl⟩
    · intro hflag hne
      have hne' : unmatched.isEmpty = false := by
        cases unmatched with
        | nil => exact absurd rfl hne
        | cons a l => rfl
      constructor
      · intro hout
        simp [dynamicStep, hne', hflag, hout]
      · intro hout
        have hout' : (runStage db tid unmatched).isEmpty = false := by
          cases h : runStage db tid unmatched with
          | nil => exact absurd h hout
          | cons a l => rfl
        simp [dynamicStep, hne', hflag, hout']
    · intro h
      cases h with
      | inl hflag => simp [dynamicStep, hflag]
      | inr hemp => simp [dynamicStep, hemp]

/-- A concrete stage behavior for witnesses: always returns the single
not-found result `mZero`. -/
def stageOneResult : Strategy := fun inp =>
  .ok { assessment_template_id := inp.assessment_template_id, results := [mZero] }

/-- Witness for C3: a passthrough stage answering one not-found result for
one remaining question appends that result wholesale (no match_found
re-check) and clears the unmatched set; a dynamic stage with the dynamic
flags off leaves the state unchanged. -/
theorem claim_fallback_clobber_witness :
    passthroughStep { fallback_to_passthrough := true } (some stageOneResult)
        "t1" [] [qA] =
      { results := [] ++ runStage stageOneResult "t1" [qA],
        unmatched := [], invoked := true }
    ∧ dynamicStep { fallback_to_passthrough := true } (some stageOneResult)
        "t1" [] [qA] =
      { results := [], unmatched := [qA], invoked := false } := by
  have h := claim_fallback_clobber { fallback_to_passthrough := true } "t1"
    stageOneResult stageOneResult [] [qA]
  exact ⟨(h.1.1 rfl (by decide)).2 (by decide), h.2.2.1 (Or.inl rfl)⟩

/-- A stage behavior that returns an output with no results, as the
orchestrator's `_try_*` helpers do after catching a stage exception. -/
def emptyStage : Strategy := fun inp =>
  .ok { assessment_template_id := inp.assessment_template_id, results := [] }

/-- C5: if any single stage's strategy call raises, the orchestrator catches
it and treats that stage as contributing zero results (first conjunct), the
whole run is observationally the same as one whose stage returned an empty
result list (next three conjuncts, one per stage), and the pipeline
continues with the next enabled stage (last conjunct: with the similarity
stage raising, a present and enabled passthrough stage is still invoked).
`orchestrate` is total, so no strategy exception reaches the caller. -/
theorem claim_orchestrator_fault_isolation (cfg : OrchestratorConfig)
    (tid : String) (questions : List QuestionInput) (simB : Strategy)
    (passB dynB : Option Strategy) (e : String) :
    (∀ (b : Strategy) (qs : List QuestionInput),
        b { assessment_template_id := tid, questions := qs } = .error e →
        runStage b tid qs = [])
    ∧ ((∀ inp, simB inp = .error e) →
        orchestrate cfg tid questions simB passB dynB =
          orchestrate cfg tid questions emptyStage passB dynB)
    ∧ (∀ pb : Strategy, (∀ inp, pb inp = .error e) →
        orchestrate cfg tid questions simB (some pb) dynB =
          orchestrate cfg tid questions simB (some emptyStage) dynB)
    ∧ (∀ db : Strategy, (∀ inp, db inp = .error e) →
        orchestrate cfg tid questions simB passB (some db) =
          orchestrate cfg tid questions simB passB (some emptyStage))
    ∧ ((∀ inp, simB inp = .error e) → questions ≠ [] →
        cfg.fallback_to_passthrough = true → ∀ pb : Strategy,
        (orchestrate cfg tid questions simB (some pb) dynB).passInvoked = true) := by
  have hrun : ∀ (b : Strategy) (qs : List QuestionInput),
      b { assessment_template_id := tid, questions := qs } = .error e →
      runStage b tid qs = [] := by
    intro b qs hb
    rw [runStage, hb]
  refine ⟨hrun, ?_, ?_, ?_, ?_⟩
  · intro hsim
    have h1 : ∀ qs, runStage simB tid qs = runStage emptyStage tid qs := by
      intro qs
      rw [hrun simB qs (hsim _)]
      rfl
    simp only [orchestrate, similarityStep, h1]
  · intro pb hpb
    have h1 : ∀ qs, runStage pb tid qs = runStage emptyStage tid qs := by
      intro qs
      rw [hrun pb qs (hpb _)]
      rfl
    simp only [orchestrate, passthroughStep, h1]
  · intro db hdb
    have h1 : ∀ qs, runStage db tid qs = runStage emptyStage tid qs := by
      intro qs
      rw [hrun db qs (hdb _)]
      rfl
    simp only [orchestrate, dynamicStep, h1]
  · intro hsim hne hflag pb
    have hne' : questions.isEmpty = false := by
      cases questions with
      | nil => exact absurd rfl hne
      | cons a l => rfl
    have hsim1 : runStage simB tid questions = [] := hrun simB questions (hsim _)
    have hstep : similarityStep cfg simB tid questions =
        { results := [], unmatched := questions, invoked := true } := by
      rw [similarityStep, if_neg (by simp [hne']), hsim1]
      rfl
    rw [orchestrate, if_neg (by simp [hne']), hstep]
    show (passthroughStep cfg (some pb) tid [] questions).invoked = true
    rw [passthroughStep, if_pos (by simp [hne', hflag])]
    cases h : (runStage pb tid questions).isEmpty <;> simp [h]

/-- Witness for C5 at concrete inputs: a raising similarity stage leaves the
run equal to one with an empty similarity stage, and the enabled passthrough
stage is still invoked. -/
theorem claim_orchestrator_fault_isolation_witness :
    orchestrate { fallback_to_passthrough := true } "t1" [qA]
        (fun _ => .error "auth failure") (some stageOneResult) none =
      orchestrate { fallback_to_passthrough := true } "t1" [qA]
        emptyStage (some stageOneResult) none
    ∧ (orchestrate { fallback_to_passthrough := true } "t1" [qA]
        (fun _ => .error "auth failure") (some stageOneResult) none).passInvoked
        = true := by
  have h := claim_orchestrator_fault_isolation { fallback_to_passthrough := true }
    "t1" [qA] (fun _ => .error "auth failure") (some stageOneResult) none
    "auth failure"
  exact ⟨h.2.1 (fun _ => rfl),
    h.2.2.2.2 (fun _ => rfl) (by decide) rfl stageOneResult⟩

/-- C8: the passthrough strategy is a deterministic pure function of config
and question text (it is embedded as a Lean function, and the conjuncts pin
its value down): the batch output carries the input ids and texts in input
order (first conjunct) and is the per-question map (second); each result is
a found match with score 1.0 and the formatted prompt, unless formatting
raised, in which case it is a not-found match with the error set (third);
the prompt is built by substituting the question into the template, then
prepending the prefix with one separating space when configured (truthy),
then appending the suffix likewise (fourth through ninth); substituting into
a template means replacing its `\x7bquestion\x7d` field with the question
text (last conjunct). -/
theorem claim_passthrough_formatting (cfg : PassthroughPromptConfig)
    (request : PromptRetrievalInput) :
    ((retrieve_prompts_pass cfg request).results.map
        (fun m => (m.question_id, m.question_text)) =
      request.questions.map (fun q => (q.question_id, q.question_text)))
    ∧ (retrieve_prompts_pass cfg request).results =
        request.questions.map (passthroughMatch cfg)
    ∧ (∀ q : QuestionInput,
        (∀ p, format_question_as_prompt cfg q.question_text = .ok p →
          passthroughMatch cfg q =
            { question_id := q.question_id, question_text := q.question_text,
              match_found := true, match_score := some 1,
              selected_prompt_text := some p })
        ∧ (∀ e, format_question_as_prompt cfg q.question_text = .error e →
          passthroughMatch cfg q =
            { question_id := q.question_id, question_text := q.question_text,
              match_found := false, error := some e }))
    ∧ (∀ t : String, format_question_as_prompt cfg t =
        (applyTemplate cfg t).map (fun u => applySuffix cfg (applyPrefix cfg u)))
    ∧ (∀ t : String, cfg.format_template = none ∨ cfg.format_template = some "" →
        applyTemplate cfg t = .ok t)
    ∧ (∀ (t p : String), cfg.pfx = some p → p ≠ "" →
        applyPrefix cfg t = p ++ " " ++ t)
    ∧ (∀ t : String, cfg.pfx = none ∨ cfg.pfx = some "" → applyPrefix cfg t = t)
    ∧ (∀ (t sfx : String), cfg.suffix = some sfx → sfx ≠ "" →
        applySuffix cfg t = t ++ " " ++ sfx)
    ∧ (∀ t : String, cfg.suffix = none ∨ cfg.suffix = some "" → applySuffix cfg t = t)
    ∧ (∀ (qc pre post : List Char), braceFreeL pre = true → braceFreeL post = true →
        pyFormat
            (String.mk (pre ++ '\x7b' :: (String.toList "question" ++ '\x7d' :: post)))
            (String.mk qc) =
          .ok (String.mk (pre ++ (qc ++ post)))) := by
  refine ⟨?_, rfl, ?_, ?_, ?_, ?_, ?_, ?_, ?_, ?_⟩
  · rw [retrieve_prompts_pass]
    rw [List.map_map]
    refine List.map_congr_left ?_
    intro q _
    cases h : format_question_as_prompt cfg q.question_text with
    | ok p => simp [passthroughMatch, h]
    | error e => simp [passthroughMatch, h]
  · intro q
    constructor
    · intro p hp
      rw [passthroughMatch, hp]
    · intro e he
      rw [passthroughMatch, he]
  · intro t
    cases h : applyTemplate cfg t with
    | ok u => rw [format_question_as_prompt, h]; rfl
    | error e => rw [format_question_as_prompt, h]; rfl
  · intro t h
    cases h with
    | inl h0 => rw [applyTemplate, h0]
    | inr h0 => rw [applyTemplate, h0]; rfl
  · intro t p hp hne
    simp [applyPrefix, hp, hne]
  · intro t h
    cases h with
    | inl h0 => rw [applyPrefix, h0]
    | inr h0 => rw [applyPrefix, h0]; rfl
  · intro t sfx hs hne
    simp [applySuffix, hs, hne]
  · intro t h
    cases h with
    | inl h0 => rw [applySuffix, h0]
    | inr h0 => rw [applySuffix, h0]; rfl
  · intro qc pre post hpre hpost
    rw [pyFormat]
    show (pyFormatGo qc .text
      (pre ++ '\x7b' :: (String.toList "question" ++ '\x7d' :: post))).map String.mk = _
    rw [pyFormatGo_subst qc pre post hpre hpost]
    rfl

/-- A concrete passthrough config for the C8 witness: template, prefix and
suffix all set. -/
def pcfgW : PassthroughPromptConfig :=
  { pfx := some "Intro:", suffix := some "(end)",
    format_template := some "Ask: \x7bquestion\x7d" }

/-- A concrete question for the C8 witness. -/
def qHello : QuestionInput :=
  { question_id := "q9", question_text := "hello" }

/-- Witness for C8 at a concrete config (template, prefix and suffix all
set): the prompt for question text `hello` under template
`Ask: \x7bquestion\x7d`, prefix `Intro:` and suffix `(end)` comes out as
`Intro: Ask: hello (end)`, with prefix/suffix/template clauses discharged at
concrete strings. -/
theorem claim_passthrough_formatting_witness :
    applyPrefix pcfgW "x" = "Intro: x"
    ∧ applySuffix pcfgW "x" = "x (end)"
    ∧ pyFormat
        (String.mk (String.toList "Ask: " ++
          '\x7b' :: (String.toList "question" ++ '\x7d' :: String.toList "")))
        (String.mk (String.toList "hello")) =
        .ok (String.mk (String.toList "Ask: " ++
          (String.toList "hello" ++ String.toList "")))
    ∧ passthroughMatch pcfgW qHello =
      { question_id := "q9", question_text := "hello", match_found := true,
        match_score := some 1,
        selected_prompt_text := some "Intro: Ask: hello (end)" } := by
  have h := claim_passthrough_formatting pcfgW
    { assessment_template_id := "t1", questions := [qHello] }
  refine ⟨h.2.2.2.2.2.1 "x" "Intro:" rfl (by decide),
    h.2.2.2.2.2.2.2.1 "x" "(end)" rfl (by decide),
    h.2.2.2.2.2.2.2.2.2 (String.toList "hello") (String.toList "Ask: ")
      (String.toList "") (by decide) (by decide),
    (h.2.2.1 qHello).1 "Intro: Ask: hello (end)" rfl⟩

/-- C9: constructing the similarity strategy with a config whose endpoint,
api_key or index_name is empty raises at construction time (the error cases
are exactly those three); with all three non-empty, construction succeeds
carrying the configured threshold, and no configuration error is deferred to
the first retrieve_prompts call (the constructed strategy's first call
already yields one result per question). -/
theorem claim_similarity_init_validates (cfg : AzureAISearchConfig) :
    ((∃ e, similaritySearchInit cfg = .error e) ↔
      (cfg.endpoint = "" ∨ cfg.api_key = "" ∨ cfg.index_name = ""))
    ∧ (cfg.endpoint ≠ "" → cfg.api_key ≠ "" → cfg.index_name ≠ "" →
        similaritySearchInit cfg =
          .ok { similarity_threshold := cfg.similarity_threshold }
        ∧ ∀ (backend : QuestionInput → SearchOutcome)
            (request : PromptRetrievalInput),
            (retrieve_prompts_sim { similarity_threshold := cfg.similarity_threshold }
                backend request).results.length = request.questions.length) := by
  constructor
  · constructor
    · rintro ⟨e, he⟩
      by_contra hno
      push_neg at hno
      obtain ⟨h1, h2, h3⟩ := hno
      rw [similaritySearchInit] at he
      simp [truthyStr, h1, h2, h3] at he
    · intro h
      refine ⟨"AzureAISearchConfig is missing required fields.", ?_⟩
      rcases h with h | h | h <;> simp [similaritySearchInit, truthyStr, h]
  · intro h1 h2 h3
    refine ⟨?_, fun backend request => retrieve_prompts_sim_length _ backend request⟩
    rw [similaritySearchInit]
    simp [truthyStr, h1, h2, h3]

/-- A fully populated search config for the C9 witness. -/
def searchCfgGood : AzureAISearchConfig :=
  { endpoint := "https://s.example", api_key := "k",
    api_version := "2024-07-01", index_name := "prompts",
    similarity_threshold := 2/10 }

/-- A search config with an empty api_key for the C9 witness. -/
def searchCfgBad : AzureAISearchConfig :=
  { endpoint := "https://s.example", api_key := "",
    api_version := "2024-07-01", index_name := "prompts",
    similarity_threshold := 2/10 }

/-- Witness for C9: a fully populated config constructs successfully and its
first batch call returns one result per question; a config with an empty
api_key raises at construction. -/
theorem claim_similarity_init_validates_witness :
    similaritySearchInit searchCfgGood = .ok { similarity_threshold := 2/10 }
    ∧ (retrieve_prompts_sim { similarity_threshold := 2/10 }
        (fun _ => .docs [])
        { assessment_template_id := "t1", questions := [qA] }).results.length = 1
    ∧ (∃ e, similaritySearchInit searchCfgBad = .error e) := by
  have hgood := (claim_similarity_init_validates searchCfgGood).2
    (by decide) (by decide) (by decide)
  have hbad := (claim_similarity_init_validates searchCfgBad).1.mpr
    (Or.inr (Or.inl rfl))
  exact ⟨hgood.1,
    hgood.2 (fun _ => .docs []) { assessment_template_id := "t1", questions := [qA] },
    hbad⟩

end PromptRetrieval
